import Mathlib

/-!
Verification development for the ScrapperMarketplace repository.

The Python sources under `src/` are shallowly embedded here:
* `src/utils.py` — regex-based extraction heuristics (`extract_cop_amount`,
  `extract_usd_amount`, `detect_boolean_policy`, the `validate_*` helpers);
* `src/models.py` — the `AirlinePolicy` dataclass;
* `src/scrapers/base_scraper.py` — validation, confidence scoring and the
  `scrape` orchestration;
* `src/database.py` — the policy store keyed by `airline_code`;
* `src/analyzer.py` — viability-score and market-coverage computation.

Strings are embedded as `List Char`; Python `float` arithmetic is modelled
exactly over `ℚ` (all quantities involved are small decimal fractions, and no
statement below depends on binary-float rounding artefacts).  The concrete
regular expressions of `utils.py` use only literals, `\s*`, `\s+`, `[\d,.]+`,
optional groups and literal alternations, so they are embedded as token lists
interpreted by a backtracking matcher with Python's greedy, leftmost-first
search order.
-/

/-- Character classes occurring in the `utils.py` regexes: `\s`, `\d`, `[\d,.]`. -/
inductive CharCls where
  | ws
  | digit
  | numSep
deriving DecidableEq

/-- Membership in a character class.  `\s` is Python's ASCII whitespace set. -/
def clsMatch : CharCls → Char → Bool
  | .ws, c => c == ' ' || c == '\t' || c == '\n' || c.toNat == 13 || c.toNat == 11 || c.toNat == 12
  | .digit, c => c.isDigit
  | .numSep, c => c.isDigit || c == ',' || c == '.'

/-- Tokens of the regex sublanguage used by `utils.py`.
`lit` matches one character case-insensitively (all patterns are compiled with
`re.IGNORECASE`); `star`/`plus` are greedy repetitions of a class; `grp` is the
(unique) capture group `([\d,.]+)` / `([\d]+)`; `optT` is `(?:...)?`;
`altLits` is an alternation of literal words such as `(?:COP|pesos)`;
`wsOrEol` is `(?:\s|$)`. -/
inductive Tok where
  | lit (c : Char)
  | cls1 (p : CharCls)
  | star (p : CharCls)
  | plus (p : CharCls)
  | grp (p : CharCls)
  | optT (ts : List Tok)
  | altLits (ss : List (List Char))
  | wsOrEol

/-- Candidate splits of a greedy class repetition, longest consumed run first,
mirroring the backtracking order of Python's engine. -/
def runCands (p : CharCls) : List Char → List (List Char × List Char)
  | [] => [([], [])]
  | c :: rest =>
    if clsMatch p c then
      ((runCands p rest).map (fun pr => (c :: pr.1, pr.2))) ++ [([], c :: rest)]
    else
      [([], c :: rest)]

/-- Consume a literal word case-insensitively. -/
def litOutcome : List Char → List Char → List (List Char × Option (List Char))
  | [], s => [(s, none)]
  | _ :: _, [] => []
  | c :: cs, x :: xs => if x.toLower == c.toLower then litOutcome cs xs else []

/-- First capture wins (each embedded pattern has at most one group). -/
def mergeCap : Option (List Char) → Option (List Char) → Option (List Char)
  | some x, _ => some x
  | none, b => b

mutual

/-- All ways a single token can match a prefix of `s`, in Python's
backtracking priority order; each outcome is the remaining text together with
the capture produced by this token, if any. -/
def tokOutcomes : Tok → List Char → List (List Char × Option (List Char))
  | .lit _, [] => []
  | .lit ch, c :: rest => if c.toLower == ch.toLower then [(rest, none)] else []
  | .cls1 _, [] => []
  | .cls1 p, c :: rest => if clsMatch p c then [(rest, none)] else []
  | .star p, s => (runCands p s).map (fun pr => (pr.2, none))
  | .plus p, s => ((runCands p s).filter (fun pr => !pr.1.isEmpty)).map (fun pr => (pr.2, none))
  | .grp p, s => ((runCands p s).filter (fun pr => !pr.1.isEmpty)).map (fun pr => (pr.2, some pr.1))
  | .optT ts, s => seqOutcomes ts s ++ [(s, none)]
  | .altLits ss, s => ss.flatMap (fun w => litOutcome w s)
  | .wsOrEol, [] => [([], none)]
  | .wsOrEol, c :: rest => if clsMatch .ws c then [(rest, none)] else []

/-- All ways a token sequence can match a prefix of `s`, in priority order. -/
def seqOutcomes : List Tok → List Char → List (List Char × Option (List Char))
  | [], s => [(s, none)]
  | t :: ts, s =>
    (tokOutcomes t s).flatMap (fun o =>
      (seqOutcomes ts o.1).map (fun o2 => (o2.1, mergeCap o.2 o2.2)))

end

/-- `re.search` / first element of `re.findall`: scan start positions left to
right, and at the first position where the pattern matches return the capture
of the highest-priority match (Python's leftmost, greedy-backtracking rule). -/
def searchCapture (pat : List Tok) : List Char → Option (List Char)
  | [] =>
    match seqOutcomes pat [] with
    | o :: _ => some (o.2.getD [])
    | [] => none
  | c :: tl =>
    match seqOutcomes pat (c :: tl) with
    | o :: _ => some (o.2.getD [])
    | [] => searchCapture pat tl

/-- Literal word as a token sequence. -/
def lits (s : String) : List Tok := s.toList.map Tok.lit

/-- Pattern `\$\s*([\d,.]+)\s*(?:COP|pesos)`. -/
def COP_P1 : List Tok :=
  [Tok.lit '$', Tok.star .ws, Tok.grp .numSep, Tok.star .ws,
    Tok.altLits ["cop".toList, "pesos".toList]]

/-- Pattern `([\d,.]+)\s*pesos\s+colombianos`. -/
def COP_P2 : List Tok :=
  [Tok.grp .numSep, Tok.star .ws] ++ lits "pesos" ++ [Tok.plus .ws] ++ lits "colombianos"

/-- Pattern `valor(?:\s+de)?\s+\$?\s*([\d,.]+)`. -/
def COP_P3 : List Tok :=
  lits "valor" ++ [Tok.optT ([Tok.plus .ws] ++ lits "de"), Tok.plus .ws,
    Tok.optT [Tok.lit '$'], Tok.star .ws, Tok.grp .numSep]

/-- Pattern `\$\s*([\d,.]+)(?:\s|$)`. -/
def COP_P4 : List Tok :=
  [Tok.lit '$', Tok.star .ws, Tok.grp .numSep, Tok.wsOrEol]

/-- Pattern `([\d,.]+)\s*COP`. -/
def COP_P5 : List Tok :=
  [Tok.grp .numSep, Tok.star .ws] ++ lits "cop"

/-- `REGEX_COSTOS_COP` from `src/utils.py`. -/
def REGEX_COSTOS_COP : List (List Tok) :=
  [COP_P1, COP_P2, COP_P3, COP_P4, COP_P5]

/-- Pattern `USD?\s*\$?\s*([\d,.]+)`. -/
def USD_P1 : List Tok :=
  [Tok.lit 'u', Tok.lit 's', Tok.optT [Tok.lit 'd'], Tok.star .ws,
    Tok.optT [Tok.lit '$'], Tok.star .ws, Tok.grp .numSep]

/-- Pattern `\$\s*([\d,.]+)\s*(?:USD|dólares|dolares)`. -/
def USD_P2 : List Tok :=
  [Tok.lit '$', Tok.star .ws, Tok.grp .numSep, Tok.star .ws,
    Tok.altLits ["usd".toList, "dólares".toList, "dolares".toList]]

/-- Pattern `([\d,.]+)\s*dólares?`. -/
def USD_P3 : List Tok :=
  [Tok.grp .numSep, Tok.star .ws] ++ lits "dólare" ++ [Tok.optT [Tok.lit 's']]

/-- `REGEX_COSTOS_USD` from `src/utils.py`. -/
def REGEX_COSTOS_USD : List (List Tok) :=
  [USD_P1, USD_P2, USD_P3]

/-- `KEYWORDS_NEGATIVE` from `src/utils.py`. -/
def KEYWORDS_NEGATIVE : List (List Tok) :=
  [ lits "no" ++ [Tok.plus .ws, Tok.optT (lits "se" ++ [Tok.plus .ws])] ++ lits "permite",
    lits "no" ++ [Tok.plus .ws, Tok.optT (lits "es" ++ [Tok.plus .ws])] ++ lits "posible",
    lits "no" ++ [Tok.plus .ws, Tok.optT (lits "se" ++ [Tok.plus .ws])] ++ lits "autoriza",
    lits "imposible",
    lits "prohibido",
    lits "no" ++ [Tok.plus .ws, Tok.optT (lits "se" ++ [Tok.plus .ws])] ++ lits "puede",
    lits "no" ++ [Tok.plus .ws, Tok.optT (lits "es" ++ [Tok.plus .ws])] ++ lits "permitido",
    lits "no" ++ [Tok.plus .ws] ++ lits "reembolsable" ]

/-- `KEYWORDS_POSITIVE` from `src/utils.py`. -/
def KEYWORDS_POSITIVE : List (List Tok) :=
  [ lits "permite",
    lits "posible",
    lits "puede",
    lits "autorizado",
    lits "permitido",
    lits "disponible",
    lits "se" ++ [Tok.plus .ws] ++ lits "acepta" ]

/-- Python `str.strip()` whitespace test. -/
def pyIsWs (c : Char) : Bool := clsMatch .ws c

/-- Python `str.strip()`. -/
def pyStrip (s : List Char) : List Char :=
  ((s.dropWhile pyIsWs).reverse.dropWhile pyIsWs).reverse

/-- Python `str.lower()` (ASCII; the embedded texts are Spanish lowercase). -/
def pyLower (s : List Char) : List Char := s.map Char.toLower

/-- Decimal value of a digit string. -/
def digitsToNat (cs : List Char) : Nat :=
  cs.foldl (fun a c => 10 * a + (c.toNat - 48)) 0

/-- Python `int(s)` on the strings reachable here (characters drawn from
`[\d,.]` with separators already removed): succeeds exactly on a non-empty
digit string, otherwise raises `ValueError` (modelled as `none`). -/
def pyIntParse (cs : List Char) : Option Nat :=
  if !cs.isEmpty && cs.all Char.isDigit then some (digitsToNat cs) else none

/-- Syntactic part of Python `float(s)` on the strings reachable here
(digits and dots): at most one dot and at least one digit.  Returns the
integer part, the fraction digits and the fraction length. -/
def pyFloatParts (cs : List Char) : Option (Nat × Nat × Nat) :=
  let ip := cs.takeWhile (fun c => c != '.')
  match cs.dropWhile (fun c => c != '.') with
  | [] => if !cs.isEmpty && cs.all Char.isDigit then some (digitsToNat cs, 0, 0) else none
  | _ :: fp =>
    if !(ip ++ fp).isEmpty && ip.all Char.isDigit && fp.all Char.isDigit then
      some (digitsToNat ip, digitsToNat fp, fp.length)
    else none

/-- Python `float(s)` on the strings reachable here, read in decimal. -/
def pyFloatParse (cs : List Char) : Option ℚ :=
  (pyFloatParts cs).map (fun ifl => (ifl.1 : ℚ) + (ifl.2.1 : ℚ) / (10 ^ ifl.2.2 : ℚ))

/-- `amount_str.replace(',', '').replace('.', '')` from `extract_cop_amount`. -/
def stripSeps (cs : List Char) : List Char :=
  cs.filter (fun c => c != ',' && c != '.')

/-- `amount_str.replace(',', '')` from `extract_usd_amount`. -/
def stripCommas (cs : List Char) : List Char :=
  cs.filter (fun c => c != ',')

/-- One iteration of the pattern loop of `extract_cop_amount`: first match of
the pattern, separators stripped, parsed as `int`. -/
def copTry (pat : List Tok) (t : List Char) : Option Nat :=
  (searchCapture pat t).bind (fun cap => pyIntParse (stripSeps cap))

/-- One iteration of the pattern loop of `extract_usd_amount`. -/
def usdTry (pat : List Tok) (t : List Char) : Option ℚ :=
  (searchCapture pat t).bind (fun cap => pyFloatParse (stripCommas cap))

/-- The `for pattern in REGEX_COSTOS_COP` loop: on a match whose parse fails
(`ValueError`) the loop continues with the next pattern. -/
def copLoop : List (List Tok) → List Char → Option Nat
  | [], _ => none
  | pat :: ps, t =>
    match searchCapture pat t with
    | none => copLoop ps t
    | some cap =>
      match pyIntParse (stripSeps cap) with
      | some v => some v
      | none => copLoop ps t

/-- The `for pattern in REGEX_COSTOS_USD` loop. -/
def usdLoop : List (List Tok) → List Char → Option ℚ
  | [], _ => none
  | pat :: ps, t =>
    match searchCapture pat t with
    | none => usdLoop ps t
    | some cap =>
      match pyFloatParse (stripCommas cap) with
      | some v => some v
      | none => usdLoop ps t

/-- `extract_cop_amount` from `src/utils.py`. -/
def extract_cop_amount (text : List Char) : Option Nat :=
  if text.isEmpty then none else copLoop REGEX_COSTOS_COP (pyStrip text)

/-- `extract_usd_amount` from `src/utils.py`. -/
def extract_usd_amount (text : List Char) : Option ℚ :=
  if text.isEmpty then none else usdLoop REGEX_COSTOS_USD (pyStrip text)

/-- Does `needle` occur as a leading word of `hay` (exact characters)? -/
def leadsWith : List Char → List Char → Bool
  | [], _ => true
  | _ :: _, [] => false
  | c :: cs, x :: xs => c == x && leadsWith cs xs

/-- Python's substring test `needle in hay`. -/
def subOf (needle : List Char) : List Char → Bool
  | [] => leadsWith needle []
  | x :: tl => leadsWith needle (x :: tl) || subOf needle tl

/-- Number of keyword patterns with at least one hit in the text
(`re.search` per pattern, one count per pattern). -/
def countKeywordMatches (pats : List (List Tok)) (t : List Char) : Nat :=
  pats.countP (fun pat => (searchCapture pat t).isSome)

/-- The decision tail of `detect_boolean_policy` (lines 172-179 of
`src/utils.py`) as a function of the accumulated match counts. -/
def decideFromCounts (positive_matches negative_matches : Nat) : Option Bool × ℚ :=
  if negative_matches < positive_matches then
    (some true,
      min ((positive_matches : ℚ) / ((positive_matches : ℚ) + (negative_matches : ℚ) + 1)) 0.9)
  else if positive_matches < negative_matches then
    (some false,
      min ((negative_matches : ℚ) / ((positive_matches : ℚ) + (negative_matches : ℚ) + 1)) 0.9)
  else
    (none, 0)

/-- `detect_boolean_policy` from `src/utils.py`; the optional `keywords`
argument (`None` ≡ `[]`) adds one positive count per keyword occurring as a
substring of the lower-cased text. -/
def detect_boolean_policy (text : List Char) (keywords : List (List Char)) :
    Option Bool × ℚ :=
  if text.isEmpty then (none, 0)
  else
    let t := pyStrip (pyLower text)
    let positive := countKeywordMatches KEYWORDS_POSITIVE t
    let negative := countKeywordMatches KEYWORDS_NEGATIVE t
    let positive := positive + keywords.countP (fun k => subOf (pyLower k) t)
    decideFromCounts positive negative

/-- The `AirlinePolicy` dataclass from `src/models.py`.  Optional fields are
`Option`s (absence is distinguishable from `False`/`0`); `scraped_at` is an
opaque timestamp; USD costs and the confidence score are `ℚ`. -/
structure AirlinePolicy where
  airline_name : String := ""
  airline_code : String := ""
  allows_full_name_change : Option Bool := none
  allows_name_correction : Option Bool := none
  cost_name_change_domestic_cop : Option Int := none
  cost_name_change_intl_cop : Option Int := none
  cost_name_change_usd : Option ℚ := none
  allows_transfer_to_third_party : Option Bool := none
  transfer_process_description : Option String := none
  allows_cancellation : Option Bool := none
  cancellation_cost_cop : Option Int := none
  refund_percentage : Option Int := none
  time_restrictions : Option String := none
  fare_type_differences : Option String := none
  max_change_deadline : Option String := none
  terms_url : Option String := none
  support_phone : Option String := none
  support_email : Option String := none
  required_documentation : Option String := none
  notable_exceptions : Option String := none
  source_url : Option String := none
  scraped_at : Nat := 0
  raw_html_hash : Option String := none
  requires_manual_review : Bool := false
  manual_review_notes : Option String := none
  confidence_score : ℚ := 0
deriving DecidableEq

/-- A policy record with every optional field absent (the dataclass defaults). -/
def blankPolicy : AirlinePolicy := {}

/-- `validate_cop_amount` from `src/utils.py`: `None` is valid, otherwise the
amount must lie in `[0, 10_000_000]`. -/
def validate_cop_amount : Option Int → Bool
  | none => true
  | some a => decide (0 ≤ a ∧ a ≤ 10000000)

/-- `validate_usd_amount` from `src/utils.py`: `None` is valid, otherwise the
amount must lie in `[0, 5000]`. -/
def validate_usd_amount : Option ℚ → Bool
  | none => true
  | some a => decide (0 ≤ a ∧ a ≤ 5000)

/-- `validate_percentage` from `src/utils.py`: `None` is valid, otherwise the
percentage must lie in `[0, 100]`. -/
def validate_percentage : Option Int → Bool
  | none => true
  | some p => decide (0 ≤ p ∧ p ≤ 100)

/-- Characters excluded by the URL regex body `[^\s<>"{}|\\^`\[\]]`
(written by code point to keep the source plain). -/
def urlBadChar (c : Char) : Bool :=
  pyIsWs c || [60, 62, 34, 123, 125, 124, 92, 94, 96, 91, 93].contains c.toNat

/-- Consume an exact (case-sensitive) literal. -/
def dropLit : List Char → List Char → Option (List Char)
  | [], s => some s
  | _ :: _, [] => none
  | c :: cs, x :: xs => if x == c then dropLit cs xs else none

/-- The anchored URL regex `^https?://[^\s<>"{}|\\^`\[\]]+$` of
`validate_url` (`re.match` with a `$` anchor: the whole string must match). -/
def urlShape (cs : List Char) : Bool :=
  match dropLit "http".toList cs with
  | none => false
  | some rest =>
    match dropLit "s://".toList rest with
    | some body => !body.isEmpty && body.all (fun c => !urlBadChar c)
    | none =>
      match dropLit "://".toList rest with
      | some body => !body.isEmpty && body.all (fun c => !urlBadChar c)
      | none => false

/-- `validate_url` from `src/utils.py`: `None` and the empty string are valid
(`if not url`), otherwise the URL-shape regex must match. -/
def validate_url : Option String → Bool
  | none => true
  | some u => if u.isEmpty then true else urlShape u.toList

/-- `AirlinePolicy.get_missing_fields` from `src/models.py`: the critical
fields still `None`. -/
def get_missing_fields (p : AirlinePolicy) : List String :=
  (if p.allows_full_name_change = none then ["allows_full_name_change"] else []) ++
  (if p.allows_name_correction = none then ["allows_name_correction"] else []) ++
  (if p.allows_transfer_to_third_party = none then ["allows_transfer_to_third_party"] else []) ++
  (if p.cost_name_change_domestic_cop = none then ["cost_name_change_domestic_cop"] else [])

/-- `BaseScraper.validate_extracted_data` from `src/scrapers/base_scraper.py`:
the error list accumulated by the five range/shape validators plus the
more-than-3-missing-critical-fields rule, and `is_valid` = no errors.
The critical-fields message is modelled as a fixed string (the source
interpolates the missing field names into it). -/
def validate_extracted_data (p : AirlinePolicy) : Bool × List String :=
  let errors :=
    (if validate_cop_amount p.cost_name_change_domestic_cop then []
      else ["Costo doméstico COP fuera de rango"]) ++
    (if validate_usd_amount p.cost_name_change_usd then []
      else ["Costo USD fuera de rango"]) ++
    (if validate_percentage p.refund_percentage then []
      else ["Porcentaje de reembolso inválido"]) ++
    (if validate_url p.terms_url then [] else ["URL de términos inválida"]) ++
    (if validate_url p.source_url then [] else ["URL de origen inválida"]) ++
    (if 3 < (get_missing_fields p).length then ["Faltan campos críticos"] else [])
  (errors.isEmpty, errors)

/-- Python `round(x, d)` half-up at the integer scale (`⌊x + 1/2⌋`).  Python's
`round` breaks exact ties to even on binary floats; no statement below depends
on tie behaviour, so the simpler half-up rule is used. -/
def roundHalfUp (q : ℚ) : ℤ := ⌊q + 1 / 2⌋

/-- `round(x, 2)`. -/
def round2 (q : ℚ) : ℚ := (roundHalfUp (q * 100) : ℚ) / 100

/-- `round(x, 1)`. -/
def round1 (q : ℚ) : ℚ := (roundHalfUp (q * 10) : ℚ) / 10

/-- `BaseScraper.calculate_confidence_score` from
`src/scrapers/base_scraper.py`: the 4 critical fields weigh 2, the 4 important
fields weigh 1 (total weight 12), score = filled weight / total weight,
rounded to 2 decimals.  The source's accumulation loops are unrolled. -/
def calculate_confidence_score (p : AirlinePolicy) : ℚ :=
  let filled : Nat :=
    (if p.allows_full_name_change.isSome then 2 else 0) +
    (if p.allows_name_correction.isSome then 2 else 0) +
    (if p.allows_transfer_to_third_party.isSome then 2 else 0) +
    (if p.cost_name_change_domestic_cop.isSome then 2 else 0) +
    (if p.allows_cancellation.isSome then 1 else 0) +
    (if p.cancellation_cost_cop.isSome then 1 else 0) +
    (if p.refund_percentage.isSome then 1 else 0) +
    (if p.time_restrictions.isSome then 1 else 0)
  round2 ((filled : ℚ) / 12)

/-- `VIABILITY_THRESHOLDS["max_acceptable_cost_cop"]` from `src/config.py`. -/
def max_acceptable_cost_cop : Int := 200000

/-- `VIABILITY_THRESHOLDS["market_coverage_minimum"]` from `src/config.py`. -/
def market_coverage_minimum : ℚ := 40

/-- `VIABILITY_THRESHOLDS["market_coverage_ideal"]` from `src/config.py`. -/
def market_coverage_ideal : ℚ := 60

/-- `df['allows_transfer_to_third_party'].fillna(False).sum()` over the loaded
policy rows (`_calculate_overall_viability_score`, factor 1). -/
def transfer_true_count (rows : List AirlinePolicy) : Nat :=
  rows.countP (fun r => r.allows_transfer_to_third_party == some true)

/-- Rows whose domestic COP cost is present and at most the configured
ceiling (`df[df[...] <= threshold]`; pandas drops `NaN` on comparison). -/
def reasonable_cost_count (rows : List AirlinePolicy) : Nat :=
  rows.countP (fun r =>
    match r.cost_name_change_domestic_cop with
    | some c => decide (c ≤ max_acceptable_cost_cop)
    | none => false)

/-- `df['requires_manual_review'].sum()`. -/
def review_count (rows : List AirlinePolicy) : Nat :=
  rows.countP (fun r => r.requires_manual_review)

/-- `PolicyAnalyzer._calculate_overall_viability_score` from
`src/analyzer.py`: 0.5·(transfer fraction) + 0.3·(reasonable-cost fraction)
+ 0.2·(1 − review fraction), rounded to 2 decimals; 0.0 on an empty frame. -/
def calculate_overall_viability_score (rows : List AirlinePolicy) : ℚ :=
  if rows.isEmpty then 0
  else
    let total : ℚ := rows.length
    let transfer_score := (transfer_true_count rows : ℚ) / total * 0.5
    let cost_score := (reasonable_cost_count rows : ℚ) / total * 0.3
    let data_score := (1 - (review_count rows : ℚ) / total) * 0.2
    round2 (transfer_score + cost_score + data_score)

/-- The `viable_mask` of `generate_viability_report`: transfer allowed or
full name change allowed. -/
def viable_count (rows : List AirlinePolicy) : Nat :=
  rows.countP (fun r =>
    r.allows_transfer_to_third_party == some true ||
    r.allows_full_name_change == some true)

/-- `market_coverage = viable_count / total * 100` (0 on an empty frame),
from `generate_viability_report` in `src/analyzer.py`. -/
def market_coverage (rows : List AirlinePolicy) : ℚ :=
  if rows.length = 0 then 0
  else (viable_count rows : ℚ) / (rows.length : ℚ) * 100

/-- The `market_coverage_percentage` field stored in the `ViabilityReport`
(`round(market_coverage, 1)`). -/
def market_coverage_percentage (rows : List AirlinePolicy) : ℚ :=
  round1 (market_coverage rows)

/-- `ViabilityReport.get_viability_status` from `src/models.py`. -/
def get_viability_status (pct : ℚ) : String :=
  if 60 ≤ pct then "✅ VIABLE"
  else if 40 ≤ pct then "⚠️ VIABLE CON RESTRICCIONES"
  else "❌ NO VIABLE"

/-- The policy store: the rows of the `airline_policies` table
(`airline_code` is `UNIQUE`). -/
def codeCount (db : List AirlinePolicy) (code : String) : Nat :=
  db.countP (fun r => r.airline_code == code)

/-- `DatabaseManager.insert_policy` from `src/database.py`: SQLite
`INSERT OR REPLACE` under the `UNIQUE` constraint on `airline_code` deletes
any conflicting row and inserts the new one. -/
def insert_policy (db : List AirlinePolicy) (p : AirlinePolicy) : List AirlinePolicy :=
  db.filter (fun r => r.airline_code != p.airline_code) ++ [p]

/-- `DatabaseManager.delete_policy` from `src/database.py`. -/
def delete_policy (db : List AirlinePolicy) (code : String) : List AirlinePolicy :=
  db.filter (fun r => r.airline_code != code)

/-- `DatabaseManager.clear_all_policies` from `src/database.py`. -/
def clear_all_policies (_ : List AirlinePolicy) : List AirlinePolicy := []

/-- The one-row-per-code invariant of the `airline_policies` schema. -/
def one_row_per_code (db : List AirlinePolicy) : Prop :=
  ∀ code, codeCount db code ≤ 1

/-- `MAX_RETRIES` default from `src/config.py`. -/
def MAX_RETRIES : Nat := 3

/-- The retry loop of `BaseScraper.fetch_page`: each list entry is the outcome
of one network attempt (`some html` on success, `none` on a
`RequestException`); the first success within `MAX_RETRIES` attempts is
returned, otherwise `None`. -/
def fetchLoop : Nat → List (Option String) → Option String
  | 0, _ => none
  | _ + 1, [] => none
  | n + 1, a :: rest =>
    match a with
    | some t => some t
    | none => fetchLoop n rest

/-- `BaseScraper.fetch_page` from `src/scrapers/base_scraper.py`. -/
def fetch_page (attempts : List (Option String)) : Option String :=
  fetchLoop MAX_RETRIES attempts

/-- `ScrapingResult` from `src/models.py` (the fields `scrape` populates). -/
structure ScrapingResult where
  success : Bool
  policy : Option AirlinePolicy := none
  error_message : Option String := none
  execution_time_seconds : ℚ := 0

/-- The environment a single `scrape` run interacts with: the network attempt
outcomes, the airline-specific `extract_data` (which may raise, modelled as
`Except`), and the wall-clock time the run takes. -/
structure ScrapeEnv where
  attempts : List (Option String)
  extractOutcome : String → Except String AirlinePolicy
  elapsed : ℚ

/-- Join the validation errors (`"; ".join(errors)`). -/
def joinErrors (errors : List String) : String :=
  String.intercalate "; " errors

/-- `BaseScraper.scrape` from `src/scrapers/base_scraper.py`: fetch with
retries (an empty or missing body raises, caught at the top level), run the
airline-specific extraction (any exception caught at the top level), flag
invalid records for manual review, compute the confidence score, and upsert
into the store.  A failure returns `success=False` with the error message and
elapsed time, leaving the store untouched. -/
def scrape (env : ScrapeEnv) (db : List AirlinePolicy) :
    ScrapingResult × List AirlinePolicy :=
  match fetch_page env.attempts with
  | none =>
    ({ success := false, error_message := some "No se pudo obtener contenido HTML",
       execution_time_seconds := env.elapsed }, db)
  | some html =>
    if html.isEmpty then
      ({ success := false, error_message := some "No se pudo obtener contenido HTML",
         execution_time_seconds := env.elapsed }, db)
    else
      match env.extractOutcome html with
      | .error e =>
        ({ success := false, error_message := some e,
           execution_time_seconds := env.elapsed }, db)
      | .ok policy0 =>
        let v := validate_extracted_data policy0
        let policy1 :=
          if v.1 then policy0
          else { policy0 with
                   requires_manual_review := true,
                   manual_review_notes := some (joinErrors v.2) }
        let policy2 := { policy1 with confidence_score := calculate_confidence_score policy1 }
        ({ success := true, policy := some policy2, execution_time_seconds := env.elapsed },
          insert_policy db policy2)

/-- A record whose transfer policy was extracted as allowed. -/
def transferYes : AirlinePolicy :=
  { blankPolicy with allows_transfer_to_third_party := some true }

/-- A record whose transfer policy was extracted as not allowed. -/
def transferNo : AirlinePolicy :=
  { blankPolicy with allows_transfer_to_third_party := some false }

/-- Three stored records, exactly one allowing transfer, no costs, none
flagged for review. -/
def exRowsC3 : List AirlinePolicy := [transferYes, blankPolicy, blankPolicy]

/-- Seven stored records: three with transfer allowed, two with transfer
denied, two with the field absent (the spec's end-to-end scenario). -/
def exRowsC4 : List AirlinePolicy :=
  [transferYes, transferYes, transferYes, transferNo, transferNo, blankPolicy, blankPolicy]

/-- A record with exactly one important field populated. -/
def onlyCancellation : AirlinePolicy :=
  { blankPolicy with allows_cancellation := some true }

/-- A scrape environment whose three network attempts all fail. -/
def envFailAll : ScrapeEnv :=
  { attempts := [none, none, none],
    extractOutcome := fun _ => .ok blankPolicy,
    elapsed := 5 }

/-- A scrape environment that fetches a page but whose extraction raises. -/
def envExtractRaises : ScrapeEnv :=
  { attempts := [some "<html>politicas</html>"],
    extractOutcome := fun _ => .error "lxml parse error",
    elapsed := 2 }

/-- The COP pattern loop returns the first pattern's first-match parse along
the pattern list. -/
theorem copLoop_eq_findSome (ps : List (List Tok)) (t : List Char) :
    copLoop ps t = ps.findSome? (fun pat => copTry pat t) := by
  induction ps with
  | nil => rfl
  | cons p ps ih =>
    rw [copLoop, List.findSome?_cons]
    cases h : searchCapture p t with
    | none => simp [copTry, h, ih]
    | some cap =>
      cases hp : pyIntParse (stripSeps cap) with
      | none => simp [copTry, h, hp, ih]
      | some v => simp [copTry, h, hp]

/-- The USD pattern loop returns the first pattern's first-match parse along
the pattern list. -/
theorem usdLoop_eq_findSome (ps : List (List Tok)) (t : List Char) :
    usdLoop ps t = ps.findSome? (fun pat => usdTry pat t) := by
  induction ps with
  | nil => rfl
  | cons p ps ih =>
    rw [usdLoop, List.findSome?_cons]
    cases h : searchCapture p t with
    | none => simp [usdTry, h, ih]
    | some cap =>
      cases hp : pyFloatParse (stripCommas cap) with
      | none => simp [usdTry, h, hp, ih]
      | some v => simp [usdTry, h, hp]

/-- No COP pattern matches the empty text. -/
theorem copTry_nil (pat : List Tok) (hmem : pat ∈ REGEX_COSTOS_COP) : copTry pat [] = none := by
  fin_cases hmem <;> decide

/-- No USD pattern matches the empty text. -/
theorem usdSearch_nil (pat : List Tok) (hmem : pat ∈ REGEX_COSTOS_USD) :
    searchCapture pat [] = none := by
  fin_cases hmem <;> decide

/-- C1: the spec's scenario claims that `detect_boolean_policy` on
"no se permite el cambio de nombre" (no keyword list) returns `False` with a
strictly positive confidence.  It does not: the positive pattern `permite`
also fires inside the negated phrase, the counts tie 1-1, and the function
returns the unknown value with confidence 0.0. -/
theorem claim_C1_counterexample :
    ¬ ((detect_boolean_policy "no se permite el cambio de nombre".toList []).1 = some false ∧
       0 < (detect_boolean_policy "no se permite el cambio de nombre".toList []).2) := by
  have h : detect_boolean_policy "no se permite el cambio de nombre".toList [] = (none, 0) := by
    decide
  intro hcl
  rw [h] at hcl
  exact Option.noConfusion hcl.1

/-- C1 (amended): with no caller-supplied keyword list, the input
"no se permite el cambio de nombre" yields the unknown boolean with
confidence exactly 0.0 (the positive keyword `permite` matches inside the
negative phrase, so positive and negative counts tie), while
"se permite el cambio de nombre" yields `True` (with confidence 0.5). -/
theorem claim_C1_amended :
    detect_boolean_policy "no se permite el cambio de nombre".toList [] = (none, 0) ∧
    detect_boolean_policy "se permite el cambio de nombre".toList [] = (some true, 1/2) := by
  constructor
  · decide
  · have he : ("se permite el cambio de nombre".toList).isEmpty = false := by decide
    have hp : countKeywordMatches KEYWORDS_POSITIVE
        (pyStrip (pyLower "se permite el cambio de nombre".toList)) = 1 := by decide
    have hn : countKeywordMatches KEYWORDS_NEGATIVE
        (pyStrip (pyLower "se permite el cambio de nombre".toList)) = 0 := by decide
    simp only [detect_boolean_policy, he, Bool.false_eq_true, if_false, hp, hn,
      List.countP_nil, Nat.add_zero, decideFromCounts]
    norm_num [min_def]

/-- C2: COP and USD amount extraction tries the pattern list in order and
returns the numeric parse of the first pattern whose first match parses after
separator stripping (`copTry` / `usdTry` are first regex match, separators
stripped, then `int` / `float` parse); when no pattern yields a parse the
result is `none` (the functions are total, so no exception escapes).
Concretely, "$150.000 COP" extracts to the integer 150000 and "$45.50 USD"
to the float 45.5. -/
theorem claim_C2 :
    (∀ text, extract_cop_amount text =
        REGEX_COSTOS_COP.findSome? (fun pat => copTry pat (pyStrip text))) ∧
    (∀ text, extract_usd_amount text =
        REGEX_COSTOS_USD.findSome? (fun pat => usdTry pat (pyStrip text))) ∧
    extract_cop_amount "$150.000 COP".toList = some 150000 ∧
    extract_usd_amount "$45.50 USD".toList = some (91/2 : ℚ) := by
  refine ⟨fun text => ?_, fun text => ?_, by decide, ?_⟩
  · by_cases he : text.isEmpty
    · rw [List.isEmpty_iff] at he
      subst he
      decide
    · rw [extract_cop_amount, if_neg (by simp [he]), copLoop_eq_findSome]
  · by_cases he : text.isEmpty
    · rw [List.isEmpty_iff] at he
      subst he
      have hu : extract_usd_amount [] = none := rfl
      rw [hu, eq_comm, List.findSome?_eq_none_iff]
      intro pat hmem
      have hps : pyStrip ([] : List Char) = [] := rfl
      rw [usdTry, hps, usdSearch_nil pat (by simpa using hmem)]
      rfl
    · rw [extract_usd_amount, if_neg (by simp [he]), usdLoop_eq_findSome]
  · have he : ("$45.50 USD".toList).isEmpty = false := by decide
    have hs : pyStrip "$45.50 USD".toList = "$45.50 USD".toList := by decide
    have h1 : searchCapture USD_P1 "$45.50 USD".toList = none := by decide
    have h2 : searchCapture USD_P2 "$45.50 USD".toList = some ['4', '5', '.', '5', '0'] := by
      decide
    have h3 : pyFloatParts (stripCommas ['4', '5', '.', '5', '0']) = some (45, 50, 2) := by
      decide
    simp only [extract_usd_amount, he, Bool.false_eq_true, if_false, hs, REGEX_COSTOS_USD,
      usdLoop, h1, h2, pyFloatParse, h3, Option.map_some']
    norm_num

/-- Confidence bounds of the count-level decision: always in `[0, 0.9]`. -/
theorem decideFromCounts_conf_bounds (p n : ℕ) :
    0 ≤ (decideFromCounts p n).2 ∧ (decideFromCounts p n).2 ≤ 0.9 := by
  unfold decideFromCounts
  split
  · exact ⟨le_min (by positivity) (by norm_num), min_le_right _ _⟩
  · split
    · exact ⟨le_min (by positivity) (by norm_num), min_le_right _ _⟩
    · norm_num

/-- C6: exchanging the positive and negative match counts flips the returned
boolean (the unknown tie stays unknown) and leaves the confidence unchanged. -/
theorem claim_C6 : ∀ p n : ℕ,
    (decideFromCounts n p).1 = (decideFromCounts p n).1.map not ∧
    (decideFromCounts n p).2 = (decideFromCounts p n).2 := by
  intro p n
  have hc : (n : ℚ) + (p : ℚ) + 1 = (p : ℚ) + (n : ℚ) + 1 := by ring
  rcases lt_trichotomy p n with h | h | h
  · have hL : decideFromCounts n p =
        (some true, min ((n : ℚ) / ((n : ℚ) + (p : ℚ) + 1)) 0.9) := by
      unfold decideFromCounts
      rw [if_pos h]
    have hR : decideFromCounts p n =
        (some false, min ((n : ℚ) / ((p : ℚ) + (n : ℚ) + 1)) 0.9) := by
      unfold decideFromCounts
      rw [if_neg (lt_asymm h), if_pos h]
    rw [hL, hR]
    exact ⟨rfl, by rw [hc]⟩
  · subst h
    have hT : decideFromCounts p p = (none, 0) := by
      unfold decideFromCounts
      rw [if_neg (lt_irrefl p), if_neg (lt_irrefl p)]
    rw [hT]
    exact ⟨rfl, rfl⟩
  · have hL : decideFromCounts n p =
        (some false, min ((p : ℚ) / ((n : ℚ) + (p : ℚ) + 1)) 0.9) := by
      unfold decideFromCounts
      rw [if_neg (lt_asymm h), if_pos h]
    have hR : decideFromCounts p n =
        (some true, min ((p : ℚ) / ((p : ℚ) + (n : ℚ) + 1)) 0.9) := by
      unfold decideFromCounts
      rw [if_pos h]
    rw [hL, hR]
    exact ⟨rfl, by rw [hc]⟩

/-- C7: for every text and keyword list the returned confidence lies in
`[0, 0.9]`; at the count level, the winning side's confidence is its count
over (total + 1), capped at 0.9, and a tie (including 0/0) yields the unknown
boolean with confidence exactly 0. -/
theorem claim_C7 :
    (∀ text keywords, 0 ≤ (detect_boolean_policy text keywords).2 ∧
        (detect_boolean_policy text keywords).2 ≤ 0.9) ∧
    (∀ p n : ℕ, n < p →
        decideFromCounts p n = (some true, min ((p : ℚ) / ((p : ℚ) + (n : ℚ) + 1)) 0.9)) ∧
    (∀ p n : ℕ, p < n →
        decideFromCounts p n = (some false, min ((n : ℚ) / ((p : ℚ) + (n : ℚ) + 1)) 0.9)) ∧
    (∀ p n : ℕ, p = n → decideFromCounts p n = (none, 0)) := by
  refine ⟨fun text keywords => ?_, fun p n h => ?_, fun p n h => ?_, fun p n h => ?_⟩
  · unfold detect_boolean_policy
    split
    · norm_num
    · exact decideFromCounts_conf_bounds _ _
  · unfold decideFromCounts
    rw [if_pos h]
  · unfold decideFromCounts
    rw [if_neg (lt_asymm h), if_pos h]
  · subst h
    unfold decideFromCounts
    rw [if_neg (lt_irrefl p), if_neg (lt_irrefl p)]

/-- C7 witness: concrete count pairs 2-1, 1-2 and 2-2. -/
theorem claim_C7_witness :
    decideFromCounts 2 1 = (some true, 1/2) ∧
    decideFromCounts 1 2 = (some false, 1/2) ∧
    decideFromCounts 2 2 = (none, 0) := by
  refine ⟨?_, ?_, claim_C7.2.2.2 2 2 rfl⟩
  · have h := claim_C7.2.1 2 1 (by norm_num)
    rw [h]
    norm_num [min_def]
  · have h := claim_C7.2.2.1 1 2 (by norm_num)
    rw [h]
    norm_num [min_def]

/-- `roundHalfUp` is monotone. -/
theorem roundHalfUp_mono {a b : ℚ} (h : a ≤ b) : roundHalfUp a ≤ roundHalfUp b :=
  Int.floor_mono (by linarith)

/-- `round(·, 2)` is monotone. -/
theorem round2_mono {a b : ℚ} (h : a ≤ b) : round2 a ≤ round2 b := by
  unfold round2
  have hfl : roundHalfUp (a * 100) ≤ roundHalfUp (b * 100) :=
    roundHalfUp_mono (by linarith)
  have hcast : ((roundHalfUp (a * 100) : ℤ) : ℚ) ≤ ((roundHalfUp (b * 100) : ℤ) : ℚ) := by
    exact_mod_cast hfl
  linarith

/-- `round(·, 2)` keeps `[0, 1]` inside `[0, 1]`. -/
theorem round2_bounds {q : ℚ} (h0 : 0 ≤ q) (h1 : q ≤ 1) :
    0 ≤ round2 q ∧ round2 q ≤ 1 := by
  have hlo : (0 : ℤ) ≤ roundHalfUp (q * 100) := by
    rw [roundHalfUp]
    exact Int.le_floor.mpr (by push_cast; linarith)
  have hhi : roundHalfUp (q * 100) ≤ 100 := by
    rw [roundHalfUp]
    have hlt : ⌊q * 100 + 1 / 2⌋ < 101 := Int.floor_lt.mpr (by push_cast; linarith)
    omega
  constructor
  · rw [round2]
    apply div_nonneg _ (by norm_num)
    exact_mod_cast hlo
  · rw [round2, div_le_one (by norm_num)]
    exact_mod_cast hhi

/-- C3 counterexample: with three stored records of which exactly one allows
third-party transfer (no costs, none under review), the weighted formula gives
11/30 = 0.3666… but the code rounds the score to 2 decimals and returns 0.37,
so the score does not equal the formula. -/
theorem claim_C3_counterexample :
    calculate_overall_viability_score exRowsC3 ≠
      0.5 * ((transfer_true_count exRowsC3 : ℚ) / (exRowsC3.length : ℚ)) +
      0.3 * ((reasonable_cost_count exRowsC3 : ℚ) / (exRowsC3.length : ℚ)) +
      0.2 * (1 - (review_count exRowsC3 : ℚ) / (exRowsC3.length : ℚ)) := by
  have h1 : transfer_true_count exRowsC3 = 1 := by decide
  have h2 : reasonable_cost_count exRowsC3 = 0 := by decide
  have h3 : review_count exRowsC3 = 0 := by decide
  have hlen : exRowsC3.length = 3 := by decide
  have hne : exRowsC3.isEmpty = false := by decide
  simp only [calculate_overall_viability_score, hne, Bool.false_eq_true, if_false,
    h1, h2, h3, hlen]
  norm_num [round2, roundHalfUp]

/-- C3 (amended): for every set of stored records the overall viability score
equals the weighted sum — 0.5 × transfer fraction + 0.3 × reasonable-cost
fraction + 0.2 × (1 − review fraction) — **rounded to 2 decimal places**
(0.0 for an empty store), and it always lies in `[0, 1]`, even when all three
weighted components are simultaneously maximal. -/
theorem claim_C3_amended : ∀ rows : List AirlinePolicy,
    0 ≤ calculate_overall_viability_score rows ∧
    calculate_overall_viability_score rows ≤ 1 ∧
    (rows ≠ [] →
      calculate_overall_viability_score rows =
        round2 (0.5 * ((transfer_true_count rows : ℚ) / (rows.length : ℚ)) +
                0.3 * ((reasonable_cost_count rows : ℚ) / (rows.length : ℚ)) +
                0.2 * (1 - (review_count rows : ℚ) / (rows.length : ℚ)))) := by
  intro rows
  by_cases hrows : rows.isEmpty = true
  · have hnil : rows = [] := List.isEmpty_iff.mp hrows
    rw [calculate_overall_viability_score, if_pos hrows]
    exact ⟨le_refl 0, by norm_num, fun hne => absurd hnil hne⟩
  · have hnil : rows ≠ [] := by
      intro h
      exact hrows (by rw [h]; rfl)
    have hlpos : (0 : ℚ) < (rows.length : ℚ) := by
      exact_mod_cast List.length_pos.mpr hnil
    set L : ℚ := (rows.length : ℚ) with hLdef
    have hta : (transfer_true_count rows : ℚ) ≤ L := by
      have h : transfer_true_count rows ≤ rows.length := by
        unfold transfer_true_count
        exact List.countP_le_length _
      rw [hLdef]
      exact_mod_cast h
    have htb : (reasonable_cost_count rows : ℚ) ≤ L := by
      have h : reasonable_cost_count rows ≤ rows.length := by
        unfold reasonable_cost_count
        exact List.countP_le_length _
      rw [hLdef]
      exact_mod_cast h
    have htc : (review_count rows : ℚ) ≤ L := by
      have h : review_count rows ≤ rows.length := by
        unfold review_count
        exact List.countP_le_length _
      rw [hLdef]
      exact_mod_cast h
    set x := (transfer_true_count rows : ℚ) / L with hxdef
    set y := (reasonable_cost_count rows : ℚ) / L with hydef
    set z := (review_count rows : ℚ) / L with hzdef
    have hx0 : 0 ≤ x := div_nonneg (Nat.cast_nonneg _) hlpos.le
    have hx1 : x ≤ 1 := (div_le_one hlpos).mpr hta
    have hy0 : 0 ≤ y := div_nonneg (Nat.cast_nonneg _) hlpos.le
    have hy1 : y ≤ 1 := (div_le_one hlpos).mpr htb
    have hz0 : 0 ≤ z := div_nonneg (Nat.cast_nonneg _) hlpos.le
    have hz1 : z ≤ 1 := (div_le_one hlpos).mpr htc
    have hscore : calculate_overall_viability_score rows =
        round2 (x * 0.5 + y * 0.3 + (1 - z) * 0.2) := by
      rw [calculate_overall_viability_score, if_neg hrows]
    have h0 : 0 ≤ x * 0.5 + y * 0.3 + (1 - z) * 0.2 := by linarith
    have h1 : x * 0.5 + y * 0.3 + (1 - z) * 0.2 ≤ 1 := by linarith
    obtain ⟨hr0, hr1⟩ := round2_bounds h0 h1
    refine ⟨by rw [hscore]; exact hr0, by rw [hscore]; exact hr1, fun _ => ?_⟩
    rw [hscore]
    congr 1
    ring

/-- C3 witness: the amended formula clause at the three-record store. -/
theorem claim_C3_witness :
    exRowsC3 ≠ [] ∧
    calculate_overall_viability_score exRowsC3 =
      round2 (0.5 * ((transfer_true_count exRowsC3 : ℚ) / (exRowsC3.length : ℚ)) +
              0.3 * ((reasonable_cost_count exRowsC3 : ℚ) / (exRowsC3.length : ℚ)) +
              0.2 * (1 - (review_count exRowsC3 : ℚ) / (exRowsC3.length : ℚ))) :=
  ⟨by decide, (claim_C3_amended exRowsC3).2.2 (by decide)⟩

/-- C4: for a non-empty store the market coverage equals 100 × (count of
records with transfer allowed or full name change allowed) / total; it is a
pure function of the stored rows, so recomputing it on unchanged data yields
the same value; and for the 7-record scenario with exactly 3 transfer-allowed
records the coverage is 300/7 ≈ 42.9% (stored rounded to 42.9), which lands
in the "viable with restrictions" band of the default thresholds. -/
theorem claim_C4 :
    (∀ rows : List AirlinePolicy, rows ≠ [] →
        market_coverage rows = 100 * (viable_count rows : ℚ) / (rows.length : ℚ)) ∧
    (∀ rows : List AirlinePolicy, market_coverage rows = market_coverage rows) ∧
    market_coverage exRowsC4 = 300 / 7 ∧
    market_coverage_percentage exRowsC4 = 429 / 10 ∧
    get_viability_status (market_coverage_percentage exRowsC4) =
      "⚠️ VIABLE CON RESTRICCIONES" := by
  have hvc : viable_count exRowsC4 = 3 := by decide
  have hlen : exRowsC4.length = 7 := by decide
  have hcov : market_coverage exRowsC4 = 300 / 7 := by
    rw [market_coverage, if_neg (by rw [hlen]; omega), hvc, hlen]
    norm_num
  have hpct : market_coverage_percentage exRowsC4 = 429 / 10 := by
    rw [market_coverage_percentage, hcov, round1, roundHalfUp]
    norm_num
  refine ⟨fun rows hne => ?_, fun rows => rfl, hcov, hpct, ?_⟩
  · rw [market_coverage]
    have hlp : rows.length ≠ 0 := by
      intro h
      exact hne (List.length_eq_zero.mp h)
    rw [if_neg hlp]
    ring
  · rw [hpct, get_viability_status, if_neg (by norm_num), if_pos (by norm_num)]

/-- C4 witness: the formula clause applied at the 7-record scenario. -/
theorem claim_C4_witness :
    market_coverage exRowsC4 = 100 * (viable_count exRowsC4 : ℚ) / (exRowsC4.length : ℚ) :=
  claim_C4.1 exRowsC4 (by decide)

/-- One weighted field contributes monotonically to the filled weight. -/
theorem iteWeight_mono (a b : Bool) (w : ℕ) (h : a = true → b = true) :
    (if a = true then w else 0) ≤ (if b = true then w else 0) := by
  cases a
  · simp
  · rw [h rfl]

/-- C5: the field-coverage confidence score never decreases when critical or
important fields go from absent to populated: if `q` populates every field
that `p` populates (in particular when `q` is `p` with exactly one more
critical or important field filled in), then `score p ≤ score q`. -/
theorem claim_C5 : ∀ p q : AirlinePolicy,
    (p.allows_full_name_change.isSome = true → q.allows_full_name_change.isSome = true) →
    (p.allows_name_correction.isSome = true → q.allows_name_correction.isSome = true) →
    (p.allows_transfer_to_third_party.isSome = true →
      q.allows_transfer_to_third_party.isSome = true) →
    (p.cost_name_change_domestic_cop.isSome = true →
      q.cost_name_change_domestic_cop.isSome = true) →
    (p.allows_cancellation.isSome = true → q.allows_cancellation.isSome = true) →
    (p.cancellation_cost_cop.isSome = true → q.cancellation_cost_cop.isSome = true) →
    (p.refund_percentage.isSome = true → q.refund_percentage.isSome = true) →
    (p.time_restrictions.isSome = true → q.time_restrictions.isSome = true) →
    calculate_confidence_score p ≤ calculate_confidence_score q := by
  intro p q h1 h2 h3 h4 h5 h6 h7 h8
  rw [calculate_confidence_score, calculate_confidence_score]
  apply round2_mono
  rw [div_le_div_iff_of_pos_right (by norm_num)]
  have hfill :
      (if p.allows_full_name_change.isSome = true then 2 else 0) +
      (if p.allows_name_correction.isSome = true then 2 else 0) +
      (if p.allows_transfer_to_third_party.isSome = true then 2 else 0) +
      (if p.cost_name_change_domestic_cop.isSome = true then 2 else 0) +
      (if p.allows_cancellation.isSome = true then 1 else 0) +
      (if p.cancellation_cost_cop.isSome = true then 1 else 0) +
      (if p.refund_percentage.isSome = true then 1 else 0) +
      (if p.time_restrictions.isSome = true then 1 else 0) ≤
      (if q.allows_full_name_change.isSome = true then 2 else 0) +
      (if q.allows_name_correction.isSome = true then 2 else 0) +
      (if q.allows_transfer_to_third_party.isSome = true then 2 else 0) +
      (if q.cost_name_change_domestic_cop.isSome = true then 2 else 0) +
      (if q.allows_cancellation.isSome = true then 1 else 0) +
      (if q.cancellation_cost_cop.isSome = true then 1 else 0) +
      (if q.refund_percentage.isSome = true then 1 else 0) +
      (if q.time_restrictions.isSome = true then 1 else 0) := by
    have g1 := iteWeight_mono _ _ 2 h1
    have g2 := iteWeight_mono _ _ 2 h2
    have g3 := iteWeight_mono _ _ 2 h3
    have g4 := iteWeight_mono _ _ 2 h4
    have g5 := iteWeight_mono _ _ 1 h5
    have g6 := iteWeight_mono _ _ 1 h6
    have g7 := iteWeight_mono _ _ 1 h7
    have g8 := iteWeight_mono _ _ 1 h8
    omega
  exact_mod_cast hfill

/-- C5 witness: populating one important field on an otherwise blank record
does not decrease the score. -/
theorem claim_C5_witness :
    calculate_confidence_score blankPolicy ≤ calculate_confidence_score onlyCancellation :=
  claim_C5 blankPolicy onlyCancellation (by decide) (by decide) (by decide) (by decide)
    (by decide) (by decide) (by decide) (by decide)

/-- Filtering out a code leaves no row with that code. -/
theorem codeCount_filter_self (db : List AirlinePolicy) (c : String) :
    codeCount (db.filter (fun r => r.airline_code != c)) c = 0 := by
  induction db with
  | nil => rfl
  | cons r rest ih =>
    rw [List.filter_cons]
    by_cases h : r.airline_code = c
    · simp only [h, bne_self_eq_false, Bool.false_eq_true, if_false]
      exact ih
    · have hb : (r.airline_code != c) = true := by simpa using h
      rw [if_pos hb, codeCount, List.countP_cons]
      have heq : (r.airline_code == c) = false := by simpa using h
      simp only [heq, Bool.false_eq_true, if_false, Nat.add_zero]
      exact ih

/-- Filtering never increases a per-code row count. -/
theorem codeCount_filter_le (db : List AirlinePolicy) (q : AirlinePolicy → Bool)
    (c : String) : codeCount (db.filter q) c ≤ codeCount db c :=
  (List.filter_sublist db).countP_le _

/-- C8: upserting a policy leaves exactly one row for its airline code, and
the one-row-per-code invariant of the store is preserved by upsert, by
delete-by-code and by bulk clear (reads do not change the store). -/
theorem claim_C8 :
    (∀ db p, codeCount (insert_policy db p) p.airline_code = 1) ∧
    (∀ db p, one_row_per_code db → one_row_per_code (insert_policy db p)) ∧
    (∀ db code, one_row_per_code db → one_row_per_code (delete_policy db code)) ∧
    (∀ db, one_row_per_code (clear_all_policies db)) := by
  refine ⟨fun db p => ?_, fun db p hdb => fun c => ?_, fun db code hdb => fun c => ?_, fun db => fun c => ?_⟩
  · rw [insert_policy, codeCount, List.countP_append]
    have h0 := codeCount_filter_self db p.airline_code
    rw [codeCount] at h0
    rw [h0]
    simp [List.countP_cons]
  · rw [insert_policy, codeCount, List.countP_append]
    by_cases hc : c = p.airline_code
    · subst hc
      have h0 := codeCount_filter_self db p.airline_code
      rw [codeCount] at h0
      rw [h0]
      simp [List.countP_cons]
    · have h1 : codeCount (db.filter (fun r => r.airline_code != p.airline_code)) c ≤ 1 :=
        le_trans (codeCount_filter_le db _ c) (hdb c)
      rw [codeCount] at h1
      have h2 : (p.airline_code == c) = false :=
        beq_eq_false_iff_ne.mpr (fun h => hc h.symm)
      simp only [List.countP_cons, List.countP_nil, h2, Bool.false_eq_true, if_false,
        Nat.add_zero, Nat.zero_add]
      exact h1
  · exact le_trans (codeCount_filter_le db _ c) (hdb c)
  · exact Nat.zero_le 1

/-- C8 witness: the invariant-preservation clauses at a concrete store. -/
theorem claim_C8_witness :
    codeCount (insert_policy [] transferYes) transferYes.airline_code = 1 ∧
    one_row_per_code (insert_policy [] transferYes) ∧
    one_row_per_code (delete_policy [] "AV") := by
  refine ⟨claim_C8.1 [] transferYes, claim_C8.2.1 [] transferYes ?_, claim_C8.2.2.1 [] "AV" ?_⟩
  · intro c
    exact Nat.zero_le 1
  · intro c
    exact Nat.zero_le 1

/-- C9: when the page fetch exhausts its retries, or extraction raises, the
scrape operation returns `success = false` with an error message and the
elapsed time, it does not re-raise (it is a total function into
`ScrapingResult`), and the store is left exactly as it was. -/
theorem claim_C9 :
    (∀ (env : ScrapeEnv) (db : List AirlinePolicy), fetch_page env.attempts = none →
        (scrape env db).1.success = false ∧
        ((scrape env db).1.error_message).isSome = true ∧
        (scrape env db).1.execution_time_seconds = env.elapsed ∧
        (scrape env db).2 = db) ∧
    (∀ (env : ScrapeEnv) (db : List AirlinePolicy) (html e : String),
        fetch_page env.attempts = some html → html.isEmpty = false →
        env.extractOutcome html = .error e →
        (scrape env db).1.success = false ∧
        (scrape env db).1.error_message = some e ∧
        (scrape env db).1.execution_time_seconds = env.elapsed ∧
        (scrape env db).2 = db) := by
  constructor
  · intro env db h
    simp only [scrape, h]
    simp
  · intro env db html e h1 h2 h3
    simp only [scrape, h1, h2, h3, Bool.false_eq_true, if_false]
    simp

/-- C9 witness: a run whose three attempts all fail, and a run whose
extraction raises, both fail without touching the store. -/
theorem claim_C9_witness :
    (scrape envFailAll []).1.success = false ∧
    (scrape envFailAll []).2 = [] ∧
    (scrape envExtractRaises []).1.success = false ∧
    (scrape envExtractRaises []).1.error_message = some "lxml parse error" ∧
    (scrape envExtractRaises []).2 = [] := by
  have h1 := claim_C9.1 envFailAll [] rfl
  have h2 := claim_C9.2 envExtractRaises [] "<html>politicas</html>" "lxml parse error"
    rfl rfl rfl
  exact ⟨h1.1, h1.2.2.2, h2.1, h2.2.1, h2.2.2.2⟩

/-- C10: every range validator accepts an absent value (and `validate_url`
also accepts the empty string), so a record whose cost, percentage and URL
fields are all absent accumulates no range-validation error: its error list
is exactly the critical-fields message when more than 3 critical fields are
missing and empty otherwise, and it is flagged invalid (hence for manual
review) exactly through that rule. -/
theorem claim_C10 :
    validate_cop_amount none = true ∧
    validate_usd_amount none = true ∧
    validate_percentage none = true ∧
    validate_url none = true ∧
    validate_url (some "") = true ∧
    (∀ p : AirlinePolicy,
      p.cost_name_change_domestic_cop = none →
      p.cost_name_change_usd = none →
      p.refund_percentage = none →
      p.terms_url = none →
      p.source_url = none →
      (validate_extracted_data p).2 =
        (if 3 < (get_missing_fields p).length then ["Faltan campos críticos"] else []) ∧
      ((validate_extracted_data p).1 = false ↔ 3 < (get_missing_fields p).length)) := by
  refine ⟨rfl, rfl, rfl, rfl, rfl, fun p h1 h2 h3 h4 h5 => ?_⟩
  have herr : (validate_extracted_data p).2 =
      (if 3 < (get_missing_fields p).length then ["Faltan campos críticos"] else []) := by
    simp only [validate_extracted_data, h1, h2, h3, h4, h5]
    rfl
  have hval : (validate_extracted_data p).1 = ((validate_extracted_data p).2).isEmpty := rfl
  refine ⟨herr, ?_⟩
  rw [hval, herr]
  by_cases hm : 3 < (get_missing_fields p).length
  · simp [hm]
  · simp [hm]

/-- C10 witness: the all-absent record is flagged only through the
critical-fields rule. -/
theorem claim_C10_witness :
    (validate_extracted_data blankPolicy).2 = ["Faltan campos críticos"] ∧
    (validate_extracted_data blankPolicy).1 = false := by
  have h := claim_C10.2.2.2.2.2 blankPolicy rfl rfl rfl rfl rfl
  have hm : 3 < (get_missing_fields blankPolicy).length := by decide
  exact ⟨by rw [h.1, if_pos hm], h.2.mpr hm⟩
